import Mathlib

/-!
# Verification model of the `so-much-for-subtlety` character controller

Shallow embedding of the live modules of the repository
(`src/player.rs`, `src/game.rs`, `src/input.rs`; `src/plugin.rs` is a dead
duplicate not declared in `main.rs`).

Modelling conventions:
* Rust `f32`/`f64` scalars are modelled as exact rationals (`ℚ`) where the
  code only adds, subtracts, multiplies and compares, and as reals (`ℝ`)
  where trigonometry is involved (`Quat::from_rotation_z`, `atan2`,
  `angle_to`).
* Bevy entities are modelled as natural numbers; an ECS query's possible
  miss (`get_mut` returning `Err`) is an `Option`.
* `Quat` values in this code are always rotations about the Z axis
  (`Quat::IDENTITY` or `Quat::from_rotation_z θ`), so a quaternion is
  modelled by its rotation angle; quaternion composition is angle addition
  and the action on an `(x, y, 0)` vector is the planar rotation.
-/

namespace SMFS

/-! ## Projectile lifecycle (`game.rs::move_objects`)

```rust
for (entity, mut transform, mut projectile) in query.iter_mut() {
    let delta_time = time.delta_secs_f64().adjust_precision();
    transform.translation += projectile.velocity.extend(0.0) * delta_time;
    if projectile.lifetime > 0.0 {
        projectile.lifetime -= delta_time;
    } else {
        commands.entity(entity).despawn();
    }
}
```

A projectile entity is its `Transform.translation` x/y (the z component is
never changed, since the added vector is `velocity.extend(0.0)`), its
`Projectile { velocity, lifetime }` component, and an `alive` flag: a
despawned entity leaves the query, which we model by making
`move_objects_step` the identity once `alive = false`. -/

/-- The `Projectile` component of `weapons.rs` together with the entity's
translation, as read and written by `move_objects`.  `alive = false` means
`commands.entity(entity).despawn()` has been issued. -/
structure ProjEntity where
  posx : ℚ
  posy : ℚ
  velx : ℚ
  vely : ℚ
  lifetime : ℚ
  alive : Bool
  deriving DecidableEq, Repr

/-- One frame of `move_objects` acting on a single projectile entity:
the translation is advanced by `velocity * delta_time` unconditionally,
then the lifetime is decremented if it is still positive, otherwise the
entity is despawned. -/
def move_objects_step (dt : ℚ) (o : ProjEntity) : ProjEntity :=
  if o.alive then
    let o2 : ProjEntity :=
      { o with posx := o.posx + o.velx * dt, posy := o.posy + o.vely * dt }
    if 0 < o2.lifetime then
      { o2 with lifetime := o2.lifetime - dt }
    else
      { o2 with alive := false }
  else o

/-- `move_objects` applied for `n` consecutive frames of equal delta `dt`. -/
def move_objects_frames (dt : ℚ) (o : ProjEntity) : ℕ → ProjEntity
  | 0 => o
  | n + 1 => move_objects_step dt (move_objects_frames dt o n)

/-- While the projectile is still alive after `n` frames, its whole state is
determined: position advanced by `n * dt * velocity`, velocity untouched,
lifetime decremented `n` times. -/
lemma move_objects_frames_alive (dt px py vx vy L : ℚ) (n : ℕ)
    (h : (move_objects_frames dt ⟨px, py, vx, vy, L, true⟩ n).alive = true) :
    move_objects_frames dt ⟨px, py, vx, vy, L, true⟩ n =
      ⟨px + vx * (n * dt), py + vy * (n * dt), vx, vy, L - n * dt, true⟩ := by
  induction n with
  | zero => simp [move_objects_frames]
  | succ n ih =>
    have halive : (move_objects_frames dt ⟨px, py, vx, vy, L, true⟩ n).alive = true := by
      cases hval : (move_objects_frames dt ⟨px, py, vx, vy, L, true⟩ n).alive
      · exfalso
        have heq : move_objects_frames dt ⟨px, py, vx, vy, L, true⟩ (n + 1) =
            move_objects_frames dt ⟨px, py, vx, vy, L, true⟩ n := by
          simp [move_objects_frames, move_objects_step, hval]
        rw [heq, hval] at h
        exact Bool.noConfusion h
      · rfl
    have hn := ih halive
    rw [move_objects_frames, hn] at h ⊢
    by_cases hpos : 0 < L - n * dt
    · simp only [move_objects_step, if_pos rfl, if_pos hpos]
      have h1 : px + vx * (n * dt) + vx * dt = px + vx * ((n + 1 : ℕ) * dt) := by
        push_cast; ring
      have h2 : py + vy * (n * dt) + vy * dt = py + vy * ((n + 1 : ℕ) * dt) := by
        push_cast; ring
      have h3 : L - n * dt - dt = L - ((n + 1 : ℕ) * dt) := by
        push_cast; ring
      simp [h1, h2, h3]
    · simp [move_objects_step, hpos] at h

/-- As long as no more than `⌈L / dt⌉₊` frames have elapsed, the projectile
is still alive and its state is the closed form. -/
lemma move_objects_frames_le_ceil (dt px py vx vy L : ℚ)
    (hdt : 0 < dt) (n : ℕ) (hn : n ≤ ⌈L / dt⌉₊) :
    move_objects_frames dt ⟨px, py, vx, vy, L, true⟩ n =
      ⟨px + vx * (n * dt), py + vy * (n * dt), vx, vy, L - n * dt, true⟩ := by
  induction n with
  | zero => simp [move_objects_frames]
  | succ n ih =>
    have hn' : n ≤ ⌈L / dt⌉₊ := Nat.le_of_succ_le hn
    have hstate := ih hn'
    have hlt : (n : ℚ) < L / dt := by
      have : n < ⌈L / dt⌉₊ := Nat.lt_of_succ_le hn
      exact Nat.lt_ceil.mp this
    have hpos : 0 < L - n * dt := by
      have : (n : ℚ) * dt < L := (lt_div_iff₀ hdt).mp hlt
      linarith
    rw [move_objects_frames, hstate]
    simp only [move_objects_step, if_pos rfl, if_pos hpos]
    have h1 : px + vx * (n * dt) + vx * dt = px + vx * ((n + 1 : ℕ) * dt) := by
      push_cast; ring
    have h2 : py + vy * (n * dt) + vy * dt = py + vy * ((n + 1 : ℕ) * dt) := by
      push_cast; ring
    have h3 : L - n * dt - dt = L - ((n + 1 : ℕ) * dt) := by
      push_cast; ring
    simp [h1, h2, h3]

/-- **C3 (counterexample).** The claim says a projectile with lifetime `L = 2`
advanced with `dt = 1` is destroyed exactly at frame `⌈L/dt⌉ = 2`; but after
two frames of `move_objects` the despawn has not been issued. -/
theorem move_objects_not_destroyed_at_ceil :
    ⌈(2 : ℚ) / 1⌉₊ = 2 ∧
      (move_objects_frames 1 ⟨0, 0, 0, 0, 2, true⟩ 2).alive = true := by
  constructor
  · norm_num
  · norm_num [move_objects_frames, move_objects_step]

/-- **C3 (amended).** A projectile with initial lifetime `L > 0` advanced
with constant per-frame delta `dt > 0` is alive through frame `⌈L/dt⌉₊`
(so it is never destroyed at or before that frame) and the despawn is
issued exactly at frame `⌈L/dt⌉₊ + 1`. -/
theorem move_objects_destroyed_at_ceil_succ (dt px py vx vy L : ℚ)
    (_hL : 0 < L) (hdt : 0 < dt) :
    (∀ n, n ≤ ⌈L / dt⌉₊ →
        (move_objects_frames dt ⟨px, py, vx, vy, L, true⟩ n).alive = true) ∧
      (move_objects_frames dt ⟨px, py, vx, vy, L, true⟩
        (⌈L / dt⌉₊ + 1)).alive = false := by
  constructor
  · intro n hn
    rw [move_objects_frames_le_ceil dt px py vx vy L hdt n hn]
  · have hstate := move_objects_frames_le_ceil dt px py vx vy L hdt
      ⌈L / dt⌉₊ le_rfl
    rw [move_objects_frames, hstate]
    have hdiv : L / dt ≤ (⌈L / dt⌉₊ : ℚ) := Nat.le_ceil _
    have hle : L ≤ (⌈L / dt⌉₊ : ℚ) * dt := (div_le_iff₀ hdt).mp hdiv
    have hnonpos : ¬ (0 < L - (⌈L / dt⌉₊ : ℚ) * dt) := by
      push_neg
      linarith
    simp [move_objects_step, hnonpos]

/-- **C3 (witness).** Concrete run with `L = 2`, `dt = 1`: alive through
frame `⌈2/1⌉₊ = 2`, destroyed at frame 3. -/
theorem move_objects_destroyed_at_ceil_succ_witness :
    0 < (2 : ℚ) ∧ 0 < (1 : ℚ) ∧
      ((∀ n, n ≤ ⌈(2 : ℚ) / 1⌉₊ →
          (move_objects_frames 1 ⟨0, 0, 3, 4, 2, true⟩ n).alive = true) ∧
        (move_objects_frames 1 ⟨0, 0, 3, 4, 2, true⟩
          (⌈(2 : ℚ) / 1⌉₊ + 1)).alive = false) :=
  ⟨by norm_num, by norm_num,
    move_objects_destroyed_at_ceil_succ 1 0 0 3 4 2 (by norm_num) (by norm_num)⟩

/-- **C9.** Any projectile still alive after `n` frames has position exactly
`initial + velocity * (n * dt)`, with its velocity unchanged throughout and
its lifetime decremented once per frame. -/
theorem move_objects_position_exact (dt px py vx vy L : ℚ) (n : ℕ)
    (h : (move_objects_frames dt ⟨px, py, vx, vy, L, true⟩ n).alive = true) :
    move_objects_frames dt ⟨px, py, vx, vy, L, true⟩ n =
      ⟨px + vx * (n * dt), py + vy * (n * dt), vx, vy, L - n * dt, true⟩ :=
  move_objects_frames_alive dt px py vx vy L n h

/-- **C9 (witness).** Concrete run: two frames of `dt = 1` move the
projectile from the origin by `(6, 8)` with velocity `(3, 4)` intact. -/
theorem move_objects_position_exact_witness :
    (move_objects_frames 1 ⟨0, 0, 3, 4, 5, true⟩ 2).alive = true ∧
      move_objects_frames 1 ⟨0, 0, 3, 4, 5, true⟩ 2 =
        ⟨0 + 3 * ((2 : ℕ) * 1), 0 + 4 * ((2 : ℕ) * 1), 3, 4, 5 - (2 : ℕ) * 1,
          true⟩ :=
  ⟨by norm_num [move_objects_frames, move_objects_step],
    move_objects_position_exact 1 0 0 3 4 5 2
      (by norm_num [move_objects_frames, move_objects_step])⟩

/-- **C10.** On the frame in which the despawn is issued (lifetime already
nonpositive at the start of the stage, entity still alive), the position is
still advanced by `velocity * dt` while the lifetime decrement is skipped. -/
theorem move_objects_step_expired (dt : ℚ) (o : ProjEntity)
    (halive : o.alive = true) (hexp : o.lifetime ≤ 0) :
    move_objects_step dt o =
      { o with posx := o.posx + o.velx * dt, posy := o.posy + o.vely * dt,
               alive := false } := by
  have hnot : ¬ (0 < o.lifetime) := not_lt.mpr hexp
  simp [move_objects_step, halive, hnot]

/-- **C10 (witness).** Concrete expired projectile: position still advances,
lifetime stays `0`, despawn issued. -/
theorem move_objects_step_expired_witness :
    ((⟨7, 8, 3, 4, 0, true⟩ : ProjEntity).alive = true ∧
        (⟨7, 8, 3, 4, 0, true⟩ : ProjEntity).lifetime ≤ 0) ∧
      move_objects_step 2 ⟨7, 8, 3, 4, 0, true⟩ = ⟨7 + 3 * 2, 8 + 4 * 2, 3, 4, 0, false⟩ :=
  ⟨⟨rfl, by norm_num⟩, move_objects_step_expired 2 ⟨7, 8, 3, 4, 0, true⟩ rfl (by norm_num)⟩

/-! ## Movement resolver (`player.rs::movement`, `player.rs::apply_movement_damping`)

`movement` drains the `PlayerAction` event queue in emission order.  Per
event it looks the target entity up in the controller query (`get_mut`,
which can miss) and mutates its components:

```rust
PlayerAction::Move(e, dir) => { vel.x += dir * accel.0 * delta_time; }
PlayerAction::Jump(e)      => { if grounded { vel.y = jump.0; } }
PlayerAction::Aim(e, x, y) => { let angle = y.atan2(*x) + PI / 2.0;
                                aim.0 = Quat::from_rotation_z(angle); }
PlayerAction::Fire(e)      => { fire.0 = 1.0; }
```

`apply_movement_damping` then multiplies `vel.x` by the damping factor for
every controller, leaving `vel.y` alone.  `y.atan2(x)` is modelled as
`Complex.arg (x + y*I)`, whose range and branch cuts agree with `atan2`. -/

/-- The per-character components touched by the resolver: tuning constants
(`MovementAcceleration`, `JumpImpulse`, `MovementDampingFactor`), the aim
quaternion (as its Z-rotation angle), the physics `LinearVelocity`, the
`Grounded` tag, and the `FireImpulse` latch. -/
structure Controller where
  acceleration : ℝ
  jump_impulse : ℝ
  damping : ℝ
  aim : ℝ
  velx : ℝ
  vely : ℝ
  grounded : Bool
  fire : ℝ

/-- The `PlayerAction` event of `player.rs`, with entities as naturals. -/
inductive PlayerAction where
  | Move : ℕ → ℝ → PlayerAction
  | Jump : ℕ → PlayerAction
  | Aim : ℕ → ℝ → ℝ → PlayerAction
  | Fire : ℕ → PlayerAction

/-- The controller query: which entities currently have the full component
set (a missed `get_mut` is `none`). -/
def World : Type := ℕ → Option Controller

/-- Writing one entity's components back into the query. -/
def updateW (w : World) (e : ℕ) (c : Controller) : World :=
  fun e2 => if e2 = e then some c else w e2

/-- One `PlayerAction` event as handled by the `movement` system's match. -/
noncomputable def applyAction (delta_time : ℝ) (w : World) :
    PlayerAction → World
  | .Move e dir =>
    match w e with
    | some c =>
        updateW w e { c with velx := c.velx + dir * c.acceleration * delta_time }
    | none => w
  | .Jump e =>
    match w e with
    | some c =>
        if c.grounded then updateW w e { c with vely := c.jump_impulse } else w
    | none => w
  | .Aim e x y =>
    match w e with
    | some c =>
        updateW w e { c with aim := Complex.arg ⟨x, y⟩ + Real.pi / 2 }
    | none => w
  | .Fire e =>
    match w e with
    | some c => updateW w e { c with fire := 1 }
    | none => w

/-- The whole `movement` system: fold the frame's event queue, in emission
order, over the world. -/
noncomputable def movement (delta_time : ℝ) (w : World)
    (events : List PlayerAction) : World :=
  events.foldl (applyAction delta_time) w

/-- `apply_movement_damping`: for every controller, `vel.x *= damping`. -/
def apply_movement_damping (w : World) : World :=
  fun e => (w e).map fun c => { c with velx := c.velx * c.damping }

/-- **C1.** Resolving `Jump(e)`: when the target is grounded its vertical
velocity is set to exactly its jump impulse (all other components,
horizontal velocity included, unchanged); when airborne the whole
controller state — both velocity components — is unchanged. -/
theorem movement_jump_iff_grounded (delta_time : ℝ) (w : World) (e : ℕ)
    (c : Controller) (h : w e = some c) :
    (c.grounded = true →
        applyAction delta_time w (.Jump e) e =
          some { c with vely := c.jump_impulse }) ∧
      (c.grounded = false →
        applyAction delta_time w (.Jump e) e = some c) := by
  constructor <;> intro hg <;> simp [applyAction, h, hg, updateW]

/-- A grounded sample controller with the gamepad tuning profile. -/
noncomputable def groundedSample : Controller :=
  ⟨1250, 1200, 0.92, 0, 3, -5, true, 0⟩

/-- A world whose every entity is `groundedSample`. -/
noncomputable def groundedWorld : World := fun _ => some groundedSample

/-- **C1 (witness).** `movement_jump_iff_grounded` at a concrete world. -/
theorem movement_jump_iff_grounded_witness :
    groundedWorld 0 = some groundedSample ∧
      ((groundedSample.grounded = true →
          applyAction 1 groundedWorld (.Jump 0) 0 =
            some { groundedSample with vely := groundedSample.jump_impulse }) ∧
        (groundedSample.grounded = false →
          applyAction 1 groundedWorld (.Jump 0) 0 = some groundedSample)) :=
  ⟨rfl, movement_jump_iff_grounded 1 groundedWorld 0 groundedSample rfl⟩

/-- **C7.** Resolving `Move(e, dir)` adds exactly
`dir * acceleration * delta_time` to the horizontal velocity, with no
clamping; two `Move` events in one frame's queue apply additively in
emission order; and with acceleration `1250`, `dir = 1`, `dt = 0.016` the
gain is exactly `20`. -/
theorem movement_move_adds_exactly (delta_time : ℝ) (w : World) (e : ℕ)
    (c : Controller) (d d2 : ℝ) (h : w e = some c) :
    (applyAction delta_time w (.Move e d) e =
        some { c with velx := c.velx + d * c.acceleration * delta_time }) ∧
      (movement delta_time w [.Move e d, .Move e d2] e =
        some { c with velx := c.velx + d * c.acceleration * delta_time
                                     + d2 * c.acceleration * delta_time }) ∧
      (c.acceleration = 1250 →
        applyAction (0.016 : ℝ) w (.Move e 1) e =
          some { c with velx := c.velx + 20 }) := by
  refine ⟨by simp [applyAction, h, updateW], ?_, ?_⟩
  · simp [movement, applyAction, h, updateW]
  · intro hacc
    have h20 : c.acceleration * (0.016 : ℝ) = 20 := by
      rw [hacc]; norm_num
    simp [applyAction, h, updateW, h20]

/-- **C7 (witness).** `movement_move_adds_exactly` at a concrete world
(acceleration `1250`), checking the `20.0` scenario as well. -/
theorem movement_move_adds_exactly_witness :
    groundedWorld 0 = some groundedSample ∧
      ((applyAction (0.016 : ℝ) groundedWorld (.Move 0 1) 0 =
          some { groundedSample with
                   velx := groundedSample.velx +
                     1 * groundedSample.acceleration * (0.016 : ℝ) }) ∧
        (movement (0.016 : ℝ) groundedWorld [.Move 0 1, .Move 0 1] 0 =
          some { groundedSample with
                   velx := groundedSample.velx +
                       1 * groundedSample.acceleration * (0.016 : ℝ)
                     + 1 * groundedSample.acceleration * (0.016 : ℝ) }) ∧
        (groundedSample.acceleration = 1250 →
          applyAction (0.016 : ℝ) groundedWorld (.Move 0 1) 0 =
            some { groundedSample with velx := groundedSample.velx + 20 })) :=
  ⟨rfl, movement_move_adds_exactly (0.016 : ℝ) groundedWorld 0 groundedSample
    1 1 rfl⟩

/-- **C8.** One application of `apply_movement_damping` multiplies the
horizontal velocity by the damping factor and leaves everything else (the
vertical velocity in particular) unchanged; for a damping factor in
`(0, 1)` the horizontal speed cannot grow. -/
theorem apply_movement_damping_contracts (w : World) (e : ℕ) (c : Controller)
    (h : w e = some c) :
    apply_movement_damping w e =
        some { c with velx := c.velx * c.damping } ∧
      (0 < c.damping → c.damping < 1 → |c.velx * c.damping| ≤ |c.velx|) := by
  refine ⟨by simp [apply_movement_damping, h], ?_⟩
  intro h1 h2
  rw [abs_mul]
  have hd : |c.damping| ≤ 1 := by
    rw [abs_of_pos h1]
    exact le_of_lt h2
  exact mul_le_of_le_one_right (abs_nonneg _) hd

/-- **C8 (witness).** Damping at a concrete world with factor `0.92`. -/
theorem apply_movement_damping_contracts_witness :
    groundedWorld 0 = some groundedSample ∧
      (apply_movement_damping groundedWorld 0 =
          some { groundedSample with
                   velx := groundedSample.velx * groundedSample.damping } ∧
        (0 < groundedSample.damping → groundedSample.damping < 1 →
          |groundedSample.velx * groundedSample.damping| ≤
            |groundedSample.velx|)) :=
  ⟨rfl, apply_movement_damping_contracts groundedWorld 0 groundedSample rfl⟩

/-! ## Weapon/aim stage (`player.rs::apply_aim_to_gun`)

```rust
transform.rotation = aim.0;
if fire.0 > 0.0 {
    let adjusted_aim = aim.0 * Quat::from_rotation_z(-FRAC_PI_2);
    let velocity = (adjusted_aim * Vec3::new(500.0, 0.0, 0.0)).truncate();
    commands.spawn((Projectile { velocity, lifetime: 2.0 }, ...));
}
fire.0 = 0.0;
```

`aim.0` is always a Z rotation, so `aim.0 * Quat::from_rotation_z(-π/2)`
is the Z rotation by `aim + -(π/2)`, and its action on `(500, 0, 0)`
followed by `truncate` is the planar rotation of `(500, 0)` (the z
component stays `0`). -/

/-- Planar rotation by angle `θ`, the action of `Quat::from_rotation_z θ`
on the xy-plane. -/
noncomputable def rotZ (θ x y : ℝ) : ℝ × ℝ :=
  (Real.cos θ * x - Real.sin θ * y, Real.sin θ * x + Real.cos θ * y)

/-- The `Projectile` component written by `apply_aim_to_gun` (velocity in
`ℝ` because it comes out of the trigonometric rotation). -/
structure ProjectileSpawn where
  velx : ℝ
  vely : ℝ
  lifetime : ℝ

/-- What one iteration of `apply_aim_to_gun` does to one gun whose parent
has aim angle `aim` and fire latch `fire`. -/
structure GunFrameResult where
  gunRotation : ℝ
  spawned : Option ProjectileSpawn
  fireAfter : ℝ

/-- `apply_aim_to_gun` for one gun: copy the aim to the gun transform;
if `fire.0 > 0.0` spawn a projectile with velocity the aim rotated by the
fixed `-π/2` correction applied to `(500, 0)` and lifetime `2.0`; clear the
fire latch unconditionally. -/
noncomputable def apply_aim_to_gun (aim fire : ℝ) : GunFrameResult :=
  if 0 < fire then
    { gunRotation := aim,
      spawned := some ⟨(rotZ (aim + -(Real.pi / 2)) 500 0).1,
                       (rotZ (aim + -(Real.pi / 2)) 500 0).2, 2⟩,
      fireAfter := 0 }
  else
    { gunRotation := aim, spawned := none, fireAfter := 0 }

/-- **C6.** Whenever the fire latch is positive, one projectile is spawned;
its velocity is the aim compose the fixed `-π/2` quarter turn applied to
the muzzle vector `(500, 0)`, its speed is therefore exactly `500`, and
its lifetime is exactly `2`. -/
theorem apply_aim_to_gun_fire (aim fire : ℝ) (h : 0 < fire) :
    ∃ p : ProjectileSpawn,
      (apply_aim_to_gun aim fire).spawned = some p ∧
        p.velx = (rotZ (aim + -(Real.pi / 2)) 500 0).1 ∧
        p.vely = (rotZ (aim + -(Real.pi / 2)) 500 0).2 ∧
        Real.sqrt (p.velx ^ 2 + p.vely ^ 2) = 500 ∧
        p.lifetime = 2 := by
  refine ⟨⟨(rotZ (aim + -(Real.pi / 2)) 500 0).1,
           (rotZ (aim + -(Real.pi / 2)) 500 0).2, 2⟩,
    by simp [apply_aim_to_gun, h], rfl, rfl, ?_, rfl⟩
  have key : (rotZ (aim + -(Real.pi / 2)) 500 0).1 ^ 2 +
      (rotZ (aim + -(Real.pi / 2)) 500 0).2 ^ 2 = 250000 := by
    simp only [rotZ]
    linear_combination
      (250000 : ℝ) * Real.sin_sq_add_cos_sq (aim + -(Real.pi / 2))
  rw [key]
  rw [show (250000 : ℝ) = 500 ^ 2 by norm_num]
  exact Real.sqrt_sq (by norm_num)

/-- **C6 (witness).** Firing with aim angle `0`: the spawned projectile has
speed exactly `500` and lifetime `2`. -/
theorem apply_aim_to_gun_fire_witness :
    0 < (1 : ℝ) ∧
      ∃ p : ProjectileSpawn,
        (apply_aim_to_gun 0 1).spawned = some p ∧
          p.velx = (rotZ (0 + -(Real.pi / 2)) 500 0).1 ∧
          p.vely = (rotZ (0 + -(Real.pi / 2)) 500 0).2 ∧
          Real.sqrt (p.velx ^ 2 + p.vely ^ 2) = 500 ∧
          p.lifetime = 2 :=
  ⟨by norm_num, apply_aim_to_gun_fire 0 1 (by norm_num)⟩

/-! ## Grounded detector (`player.rs::update_grounded`)

```rust
let is_grounded = hits.iter().any(|hit| {
    if let Some(angle) = max_slope_angle {
        (rotation * -hit.normal2).angle_to(Vector::Y).abs() <= angle.0
    } else {
        true
    }
});
if is_grounded { commands.entity(entity).insert(Grounded); }
else { commands.entity(entity).remove::<Grounded>(); }
```

The avian `Rotation` component stores the cosine/sine pair of the body's
angle and acts on a vector as the planar rotation.  glam's
`Vec2::angle_to(self, rhs)` is `atan2(self.perp_dot(rhs), self.dot(rhs))`,
modelled as `Complex.arg (dot + perp_dot * I)` (same value and range
`(-π, π]`).  The `Grounded` tag is inserted or removed from this frame's
cast results alone; the previous tag is never read, which the unused
`prevGrounded` argument records. -/

/-- avian2d's `Rotation` component: the cosine and sine of the body's
rotation angle. -/
structure Rotation2 where
  c : ℝ
  s : ℝ

/-- `Rotation * v` in avian2d: planar rotation of `v`. -/
noncomputable def rotMul (r : Rotation2) (v : ℝ × ℝ) : ℝ × ℝ :=
  (r.c * v.1 - r.s * v.2, r.s * v.1 + r.c * v.2)

/-- glam's `Vec2::angle_to`: the signed angle from `v` to `w`, in
`(-π, π]`, computed as `atan2(perp_dot, dot)`. -/
noncomputable def angleTo (v w : ℝ × ℝ) : ℝ :=
  Complex.arg ⟨v.1 * w.1 + v.2 * w.2, v.1 * w.2 - v.2 * w.1⟩

/-- The body of the `any` closure in `update_grounded`: does this cast hit
(with local-space normal `normal2`) qualify as ground, given the
character's rotation and optional `MaxSlopeAngle`? -/
def hitQualifies (r : Rotation2) (maxSlope : Option ℝ) (normal2 : ℝ × ℝ) :
    Prop :=
  match maxSlope with
  | some angle => |angleTo (rotMul r (-normal2.1, -normal2.2)) (0, 1)| ≤ angle
  | none => True

/-- `update_grounded` for one character: the `Grounded` tag after the
system ran.  `prevGrounded` is the tag before the system ran; the source
never reads it (the tag is inserted or removed purely from `is_grounded`),
hence the argument is unused. -/
def update_grounded (_prevGrounded : Prop) (hits : List (ℝ × ℝ))
    (r : Rotation2) (maxSlope : Option ℝ) : Prop :=
  ∃ n ∈ hits, hitQualifies r maxSlope n

/-- **C2.** The grounded state is a pure function of this frame's hits
(memoryless in the previous state); with a configured max slope angle it
holds exactly when some hit's inverted world-space normal is within that
angle of `+Y`; with no configured angle any hit at all grounds the
character; and with no hits the character is airborne. -/
theorem update_grounded_pure (p q : Prop) (hits : List (ℝ × ℝ))
    (r : Rotation2) (maxSlope : Option ℝ) (angle : ℝ) :
    (update_grounded p hits r maxSlope ↔ update_grounded q hits r maxSlope) ∧
      (update_grounded p hits r (some angle) ↔
        ∃ n ∈ hits, |angleTo (rotMul r (-n.1, -n.2)) (0, 1)| ≤ angle) ∧
      (hits ≠ [] → update_grounded p hits r none) ∧
      ¬ update_grounded p [] r maxSlope := by
  refine ⟨Iff.rfl, Iff.rfl, ?_, ?_⟩
  · intro hne
    obtain ⟨n, hn⟩ := List.exists_mem_of_ne_nil hits hne
    exact ⟨n, hn, trivial⟩
  · rintro ⟨n, hn, -⟩
    exact absurd hn (List.not_mem_nil n)

/-- **C2 (witness).** Concrete instantiation: one hit with normal
`(0, -1)`, identity rotation, no configured max slope angle. -/
theorem update_grounded_pure_witness :
    ([((0 : ℝ), (-1 : ℝ))] ≠ ([] : List (ℝ × ℝ))) ∧
      ((update_grounded True [((0 : ℝ), (-1 : ℝ))] ⟨1, 0⟩ none ↔
          update_grounded False [((0 : ℝ), (-1 : ℝ))] ⟨1, 0⟩ none) ∧
        (update_grounded True [((0 : ℝ), (-1 : ℝ))] ⟨1, 0⟩ (some 1) ↔
          ∃ n ∈ [((0 : ℝ), (-1 : ℝ))],
            |angleTo (rotMul ⟨1, 0⟩ (-n.1, -n.2)) (0, 1)| ≤ 1) ∧
        ([((0 : ℝ), (-1 : ℝ))] ≠ ([] : List (ℝ × ℝ)) →
          update_grounded True [((0 : ℝ), (-1 : ℝ))] ⟨1, 0⟩ none) ∧
        ¬ update_grounded True [] ⟨1, 0⟩ none) :=
  ⟨by simp, update_grounded_pure True False [((0 : ℝ), (-1 : ℝ))] ⟨1, 0⟩ none 1⟩

/-! ## Character spawner (`game.rs::spawn_character`,
`input.rs::keyboard_input` Enter branch)

```rust
// game.rs, per connected gamepad:
let start_button = gamepad.get(GamepadButton::South).unwrap_or(0.0);
let gid = entity.index();
if start_button > 0.1 && !assignments.players.contains_key(&gid) {
    let entity = commands.spawn((... with_movement(1250.0, 0.92, 1200.0,
        Quat::IDENTITY, (30.0 as Scalar).to_radians(), 0.0) ...))
        .with_children(|parent| { parent.spawn((..., Gun)); }).id();
    assignments.players.insert(gid, entity);
}

// input.rs, keyboard:
if keyboard_input.just_pressed(KeyCode::Enter) {
    let entity = commands.spawn((... with_movement(1250.0, 0.92, 800.0,
        Quat::IDENTITY, (30.0 as Scalar).to_radians(), 0.0) ...))
        .with_children(|parent| { parent.spawn((..., Gun)); }).id();
    assignments.players.insert(5, entity);   // no contains_key check
}
```

`PlayerAssignments.players` is a `HashMap<u32, Entity>`, modelled as a
function `ℕ → Option ℕ` with overwrite-on-insert; `commands.spawn().id()`
hands out fresh entities, modelled by a counter. -/

/-- The tuning constants a spawned character's `with_movement` call sets
(`MovementAcceleration`, `MovementDampingFactor`, `JumpImpulse`,
`MaxSlopeAngle`, `FireImpulse`; the aim quaternion starts at
`Quat::IDENTITY`, angle `0`). -/
structure MovementProfile where
  acceleration : ℝ
  damping : ℝ
  jump_impulse : ℝ
  max_slope_angle : ℝ
  fire_impulse : ℝ

/-- A spawned character: its movement tuning plus whether a child `Gun`
entity is attached by `with_children`. -/
structure SpawnBundle where
  profile : MovementProfile
  gunChild : Bool

/-- The bundle built by `game.rs::spawn_character` for a gamepad spawn:
`with_movement(1250.0, 0.92, 1200.0, Quat::IDENTITY,
(30.0).to_radians(), 0.0)` plus a child `Gun`. -/
noncomputable def gamepadSpawnBundle : SpawnBundle :=
  ⟨⟨1250, 0.92, 1200, 30 * Real.pi / 180, 0⟩, true⟩

/-- The bundle built by the Enter branch of `input.rs::keyboard_input`:
`with_movement(1250.0, 0.92, 800.0, Quat::IDENTITY,
(30.0).to_radians(), 0.0)` plus a child `Gun`. -/
noncomputable def keyboardSpawnBundle : SpawnBundle :=
  ⟨⟨1250, 0.92, 800, 30 * Real.pi / 180, 0⟩, true⟩

/-- **C5 (counterexample).** The two spawn paths do not hand out the same
tuning profile: the gamepad path's jump impulse is `1200.0`
(game.rs line 156) while the keyboard path's is `800.0` (input.rs
line 85). -/
theorem spawn_profiles_differ :
    gamepadSpawnBundle.profile.jump_impulse ≠
      keyboardSpawnBundle.profile.jump_impulse := by
  norm_num [gamepadSpawnBundle, keyboardSpawnBundle]

/-- **C5 (amended).** Gamepad- and keyboard-spawned characters share the
acceleration (`1250`), damping factor (`0.92`) and max slope angle
(`30°` in radians) constants and both get a child `Gun` entity, but their
jump impulses differ: `1200` for gamepad spawns, `800` for keyboard
spawns. -/
theorem spawn_profiles_shared_except_jump :
    gamepadSpawnBundle.profile.acceleration =
        keyboardSpawnBundle.profile.acceleration ∧
      gamepadSpawnBundle.profile.damping = keyboardSpawnBundle.profile.damping ∧
      gamepadSpawnBundle.profile.max_slope_angle =
        keyboardSpawnBundle.profile.max_slope_angle ∧
      gamepadSpawnBundle.gunChild = true ∧
      keyboardSpawnBundle.gunChild = true ∧
      gamepadSpawnBundle.profile.jump_impulse = 1200 ∧
      keyboardSpawnBundle.profile.jump_impulse = 800 :=
  ⟨rfl, rfl, rfl, rfl, rfl, rfl, rfl⟩

/-- The spawner-visible state: the `PlayerAssignments` map, a fresh-entity
counter standing for `commands.spawn().id()`, and the list of characters
created this frame. -/
structure SpawnState where
  players : ℕ → Option ℕ
  nextEntity : ℕ
  spawnedThisFrame : List ℕ

/-- `HashMap::insert`: bind `k` to `v`, overwriting any previous entry. -/
def insertPlayer (m : ℕ → Option ℕ) (k v : ℕ) : ℕ → Option ℕ :=
  fun k2 => if k2 = k then some v else m k2

/-- One gamepad's iteration of the `spawn_character` loop: spawn and bind
only if the south button exceeds `0.1` and the gamepad id is not yet a key
of the map. -/
def spawn_character_one (st : SpawnState) (gamepad : ℕ × ℚ) : SpawnState :=
  if 0.1 < gamepad.2 ∧ st.players gamepad.1 = none then
    { players := insertPlayer st.players gamepad.1 st.nextEntity,
      nextEntity := st.nextEntity + 1,
      spawnedThisFrame := st.spawnedThisFrame ++ [st.nextEntity] }
  else st

/-- `spawn_character`: the loop over this frame's connected gamepads, each
given as `(entity index, south-button value)`. -/
def spawn_character (st : SpawnState) (gamepads : List (ℕ × ℚ)) : SpawnState :=
  gamepads.foldl spawn_character_one st

/-- The Enter branch of `keyboard_input`: on a just-pressed Enter it spawns
a character and runs `assignments.players.insert(5, entity)` with no
`contains_key` check. -/
def keyboard_input_enter (st : SpawnState) (enterJustPressed : Bool) :
    SpawnState :=
  if enterJustPressed then
    { players := insertPlayer st.players 5 st.nextEntity,
      nextEntity := st.nextEntity + 1,
      spawnedThisFrame := st.spawnedThisFrame ++ [st.nextEntity] }
  else st

/-- **C4 (counterexample).** A keyboard spawn trigger whose source (key `5`)
is already bound is not ignored: starting from a map with `5 ↦ 0`, Enter
creates a character and rebinds `5`, changing the table. -/
theorem keyboard_spawn_not_ignored_when_bound :
    (keyboard_input_enter ⟨insertPlayer (fun _ => none) 5 0, 1, []⟩
        true).spawnedThisFrame ≠ [] ∧
      (keyboard_input_enter ⟨insertPlayer (fun _ => none) 5 0, 1, []⟩
          true).players 5 ≠
        (⟨insertPlayer (fun _ => none) 5 0, 1, []⟩ : SpawnState).players 5 := by
  constructor
  · simp [keyboard_input_enter]
  · simp [keyboard_input_enter, insertPlayer]

/-- **C4 (amended).** Gamepad spawn triggers from already-bound sources are
ignored (no character, table untouched); distinct unbound gamepad sources
pressing spawn in the same frame each create and bind one distinct
character, and a further press from a now-bound source changes nothing;
the keyboard spawn key, by contrast, always creates a character and
rebinds source `5`, bound or not. -/
theorem spawn_character_bound_ignored (st : SpawnState) (a b : ℕ)
    (pa pb pc : ℚ) (hab : a ≠ b) (ha : st.players a = none)
    (hb : st.players b = none) (hpa : (0.1 : ℚ) < pa)
    (hpb : (0.1 : ℚ) < pb) :
    (∀ st2 : SpawnState, ∀ g : ℕ × ℚ, ∀ e, st2.players g.1 = some e →
        spawn_character_one st2 g = st2) ∧
      ((spawn_character st [(a, pa), (b, pb)]).spawnedThisFrame =
          st.spawnedThisFrame ++ [st.nextEntity, st.nextEntity + 1] ∧
        (spawn_character st [(a, pa), (b, pb)]).players a =
          some st.nextEntity ∧
        (spawn_character st [(a, pa), (b, pb)]).players b =
          some (st.nextEntity + 1) ∧
        st.nextEntity ≠ st.nextEntity + 1) ∧
      spawn_character st [(a, pa), (b, pb), (a, pc)] =
        spawn_character st [(a, pa), (b, pb)] ∧
      (∀ st2 : SpawnState,
        (keyboard_input_enter st2 true).spawnedThisFrame =
            st2.spawnedThisFrame ++ [st2.nextEntity] ∧
          (keyboard_input_enter st2 true).players 5 = some st2.nextEntity) := by
  have hba : b ≠ a := Ne.symm hab
  refine ⟨?_, ?_, ?_, ?_⟩
  · intro st2 g e he
    simp [spawn_character_one, he]
  · simp [spawn_character, spawn_character_one, insertPlayer, ha, hb, hpa,
      hpb, hba, hab]
  · simp [spawn_character, spawn_character_one, insertPlayer, ha, hb, hpa,
      hpb, hba, hab]
  · intro st2
    exact ⟨by simp [keyboard_input_enter], by simp [keyboard_input_enter, insertPlayer]⟩

/-- **C4 (witness).** Two unbound gamepads `1` and `2` both press spawn in
one frame starting from an empty table. -/
theorem spawn_character_bound_ignored_witness :
    ((1 : ℕ) ≠ 2 ∧ (fun _ => (none : Option ℕ)) 1 = none ∧
        (fun _ => (none : Option ℕ)) 2 = none ∧ (0.1 : ℚ) < 1) ∧
      ((∀ st2 : SpawnState, ∀ g : ℕ × ℚ, ∀ e, st2.players g.1 = some e →
          spawn_character_one st2 g = st2) ∧
        ((spawn_character ⟨fun _ => none, 0, []⟩
              [(1, 1), (2, 1)]).spawnedThisFrame =
            (⟨fun _ => none, 0, []⟩ : SpawnState).spawnedThisFrame ++
              [(⟨fun _ => none, 0, []⟩ : SpawnState).nextEntity,
                (⟨fun _ => none, 0, []⟩ : SpawnState).nextEntity + 1] ∧
          (spawn_character ⟨fun _ => none, 0, []⟩ [(1, 1), (2, 1)]).players 1 =
            some (⟨fun _ => none, 0, []⟩ : SpawnState).nextEntity ∧
          (spawn_character ⟨fun _ => none, 0, []⟩ [(1, 1), (2, 1)]).players 2 =
            some ((⟨fun _ => none, 0, []⟩ : SpawnState).nextEntity + 1) ∧
          (⟨fun _ => none, 0, []⟩ : SpawnState).nextEntity ≠
            (⟨fun _ => none, 0, []⟩ : SpawnState).nextEntity + 1) ∧
        spawn_character ⟨fun _ => none, 0, []⟩ [(1, 1), (2, 1), (1, 1)] =
          spawn_character ⟨fun _ => none, 0, []⟩ [(1, 1), (2, 1)] ∧
        (∀ st2 : SpawnState,
          (keyboard_input_enter st2 true).spawnedThisFrame =
              st2.spawnedThisFrame ++ [st2.nextEntity] ∧
            (keyboard_input_enter st2 true).players 5 = some st2.nextEntity)) :=
  ⟨⟨by norm_num, rfl, rfl, by norm_num⟩,
    spawn_character_bound_ignored ⟨fun _ => none, 0, []⟩ 1 2 1 1 1
      (by norm_num) rfl rfl (by norm_num) (by norm_num)⟩

end SMFS
